import Mathlib

/-!
Shallow embedding of `src/server.js` (Ann Investment Company backend:
Node + Express + Mongoose) and proofs about its route handlers.

Conventions of the embedding:
* Mongo documents become Lean structures; `Number` fields are `Int`
  (amount arithmetic), `Date` fields are `Nat` timestamps.
* A JS value that may be `undefined` becomes an `Option`.
* The user collection is a `List UserDoc`; `Model.findById` is `List.find?`
  on the `id` field, `doc.save()` writes the document back by id and runs
  the mongoose validators declared in the schema (`validateBeforeSave` is
  on by default, and the schema gives `transactions.type` the enum
  `["deposit","investment","withdrawal"]`, so a defined `type` outside the
  enum makes `save()` reject with a ValidationError, which the handler
  catches as a 500).
* JS truthiness tests on strings (`if (!email)`) become `= ""` tests.
-/

/-- One entry of `userSchema.transactions`: `{ type, amount, date }`.
`type` is `Option String` because the handler stores `req.body.type`,
which may be absent. -/
structure Txn where
  type : Option String
  amount : Int
  date : Nat
  deriving Repr, DecidableEq

/-- The user document of `userSchema` in `src/server.js` (all schema paths;
`password` is stored in clear text in the source). -/
structure UserDoc where
  id : String
  firstName : String
  lastName : String
  email : String
  phone : String
  dob : String
  street : String
  city : String
  state : String
  zip : String
  password : String
  idFrontUrl : String
  idBackUrl : String
  selfieUrl : String
  verified : Bool
  frozen : Bool
  balance : Int
  totalDeposit : Int
  totalWithdrawal : Int
  totalInvestment : Int
  minDeposit : Int
  minWithdrawal : Int
  transactions : List Txn
  createdAt : Nat
  deriving Repr, DecidableEq

/-- The admin document of `adminSchema` in `src/server.js`. -/
structure AdminDoc where
  id : String
  firstName : String
  lastName : String
  email : String
  password : String
  createdAt : Nat
  deriving Repr, DecidableEq

/-- The user collection. -/
abbrev UserStore := List UserDoc

/-- `User.findById(i)`. -/
def findById (s : UserStore) (i : String) : Option UserDoc :=
  s.find? (fun u => u.id = i)

/-- `user.save()` on an existing document: write the document back over every
stored document with the same id. -/
def saveUser (s : UserStore) (u : UserDoc) : UserStore :=
  s.map (fun v => if v.id = u.id then u else v)

/-- The enum declared on `userSchema.transactions.type`:
`["deposit","investment","withdrawal"]`. An absent value passes mongoose
validation (validators skip `undefined`), a defined value must be listed. -/
def validTxnType : Option String → Bool
  | none => true
  | some s => s = "deposit" || s = "investment" || s = "withdrawal"

/-- Mongoose validation of one stored transaction entry. -/
def txnOk (t : Txn) : Bool :=
  validTxnType t.type

/-- Mongoose validation of the `transactions` array, run by `save()`. -/
def docTxnsOk (u : UserDoc) : Bool :=
  u.transactions.all txnOk

/-- The in-memory mutation of the `POST /api/admin/user/:id/transactions`
handler body: push `{ type, amount, date }`, then the three `if` statements
updating totals and balance. -/
def ledgerStep (u : UserDoc) (t : Option String) (amount : Int) (now : Nat) : UserDoc :=
  let u1 := { u with transactions := u.transactions ++ [⟨t, amount, now⟩] }
  let u2 := if t = some "deposit"
    then { u1 with totalDeposit := u1.totalDeposit + amount, balance := u1.balance + amount }
    else u1
  let u3 := if t = some "withdrawal"
    then { u2 with totalWithdrawal := u2.totalWithdrawal + amount, balance := u2.balance - amount }
    else u2
  let u4 := if t = some "investment"
    then { u3 with totalInvestment := u3.totalInvestment + amount, balance := u3.balance - amount }
    else u3
  u4

/-- Result of the transactions route. -/
inductive TxnResult where
  | notFound
  | ok (u : UserDoc)
  | validationError
  deriving Repr, DecidableEq

/-- `POST /api/admin/user/:id/transactions`: look the user up (404 when
absent), run the in-memory mutation, then `save()`; the save validates the
`transactions` array against the schema enum and the handler turns a
validation rejection into a 500 without persisting anything. -/
def applyTransaction (s : UserStore) (i : String) (t : Option String)
    (amount : Int) (now : Nat) : TxnResult × UserStore :=
  match findById s i with
  | none => (TxnResult.notFound, s)
  | some u =>
    let u2 := ledgerStep u t amount now
    if docTxnsOk u2 then (TxnResult.ok u2, saveUser s u2)
    else (TxnResult.validationError, s)

/-- One admin transactions call as the spec quantifies over them: a
recognized or unrecognized kind, an amount, and the request time. -/
structure Call where
  kind : String
  amount : Int
  time : Nat
  deriving Repr, DecidableEq

/-- The stored record a call produces. -/
def mkTxn (c : Call) : Txn :=
  ⟨some c.kind, c.amount, c.time⟩

/-- Sum of the amounts of the calls of one kind. -/
def sumKind (k : String) : List Call → Int
  | [] => 0
  | c :: r => (if c.kind = k then c.amount else 0) + sumKind k r

/-- Iterate the in-memory ledger mutation over a sequence of calls. -/
def runTxns (u : UserDoc) : List Call → UserDoc
  | [] => u
  | c :: r => runTxns (ledgerStep u (some c.kind) c.amount c.time) r

/-- Iterate the whole route (lookup, mutate, save) over a sequence of calls
against one account id. -/
def runStore (s : UserStore) (i : String) : List Call → UserStore
  | [] => s
  | c :: r => runStore (applyTransaction s i (some c.kind) c.amount c.time).snd i r

/-! Basic lemmas about one ledger mutation. -/

theorem ledgerStep_id (u : UserDoc) (t : Option String) (a : Int) (n : Nat) :
    (ledgerStep u t a n).id = u.id := by
  simp only [ledgerStep]
  split_ifs <;> rfl

theorem ledgerStep_transactions (u : UserDoc) (t : Option String) (a : Int) (n : Nat) :
    (ledgerStep u t a n).transactions = u.transactions ++ [⟨t, a, n⟩] := by
  simp only [ledgerStep]
  split_ifs <;> rfl

theorem ledgerStep_totalDeposit (u : UserDoc) (t : Option String) (a : Int) (n : Nat) :
    (ledgerStep u t a n).totalDeposit = u.totalDeposit + (if t = some "deposit" then a else 0) := by
  simp only [ledgerStep]
  split_ifs <;> simp_all

theorem ledgerStep_totalWithdrawal (u : UserDoc) (t : Option String) (a : Int) (n : Nat) :
    (ledgerStep u t a n).totalWithdrawal =
      u.totalWithdrawal + (if t = some "withdrawal" then a else 0) := by
  simp only [ledgerStep]
  split_ifs <;> simp_all

theorem ledgerStep_totalInvestment (u : UserDoc) (t : Option String) (a : Int) (n : Nat) :
    (ledgerStep u t a n).totalInvestment =
      u.totalInvestment + (if t = some "investment" then a else 0) := by
  simp only [ledgerStep]
  split_ifs <;> simp_all

theorem ledgerStep_balance (u : UserDoc) (t : Option String) (a : Int) (n : Nat) :
    (ledgerStep u t a n).balance = u.balance + (if t = some "deposit" then a else 0)
      - (if t = some "withdrawal" then a else 0) - (if t = some "investment" then a else 0) := by
  simp only [ledgerStep]
  split_ifs <;> simp_all

theorem ledgerStep_docTxnsOk (u : UserDoc) (t : Option String) (a : Int) (n : Nat) :
    docTxnsOk (ledgerStep u t a n) = (docTxnsOk u && validTxnType t) := by
  simp [docTxnsOk, ledgerStep_transactions, txnOk]

/-! Lemmas about a whole sequence of in-memory mutations. -/

theorem runTxns_transactions (l : List Call) (u : UserDoc) :
    (runTxns u l).transactions = u.transactions ++ l.map mkTxn := by
  induction l generalizing u with
  | nil => simp [runTxns]
  | cons c r ih =>
    rw [runTxns, ih, ledgerStep_transactions]
    simp [mkTxn]

theorem runTxns_totalDeposit (l : List Call) (u : UserDoc) :
    (runTxns u l).totalDeposit = u.totalDeposit + sumKind "deposit" l := by
  induction l generalizing u with
  | nil => simp [runTxns, sumKind]
  | cons c r ih =>
    rw [runTxns, ih, ledgerStep_totalDeposit, sumKind]
    simp only [Option.some.injEq]
    ring

theorem runTxns_totalWithdrawal (l : List Call) (u : UserDoc) :
    (runTxns u l).totalWithdrawal = u.totalWithdrawal + sumKind "withdrawal" l := by
  induction l generalizing u with
  | nil => simp [runTxns, sumKind]
  | cons c r ih =>
    rw [runTxns, ih, ledgerStep_totalWithdrawal, sumKind]
    simp only [Option.some.injEq]
    ring

theorem runTxns_totalInvestment (l : List Call) (u : UserDoc) :
    (runTxns u l).totalInvestment = u.totalInvestment + sumKind "investment" l := by
  induction l generalizing u with
  | nil => simp [runTxns, sumKind]
  | cons c r ih =>
    rw [runTxns, ih, ledgerStep_totalInvestment, sumKind]
    simp only [Option.some.injEq]
    ring

theorem runTxns_balance (l : List Call) (u : UserDoc) :
    (runTxns u l).balance = u.balance + sumKind "deposit" l
      - sumKind "withdrawal" l - sumKind "investment" l := by
  induction l generalizing u with
  | nil => simp [runTxns, sumKind]
  | cons c r ih =>
    rw [runTxns, ih, ledgerStep_balance, sumKind, sumKind, sumKind]
    simp only [Option.some.injEq]
    ring

/-! Store-level lemmas: lookup after save. -/

theorem findById_saveUser (s : UserStore) (i : String) (u v : UserDoc)
    (h : findById s i = some u) (hv : v.id = i) :
    findById (saveUser s v) i = some v := by
  induction s with
  | nil => simp [findById] at h
  | cons a t ih =>
    by_cases ha : a.id = i
    · simp [findById, saveUser, ha, hv]
    · have h' : findById t i = some u := by
        simpa [findById, List.find?_cons, ha] using h
      have hav : ¬ (a.id = v.id) := by rw [hv]; exact ha
      have := ih h'
      simpa [findById, saveUser, List.find?_cons, ha, hav] using this

theorem findById_id (s : UserStore) (i : String) (u : UserDoc)
    (h : findById s i = some u) : u.id = i := by
  have := List.find?_some h
  simpa using this

theorem runStore_findById (l : List Call) (s : UserStore) (i : String) (u : UserDoc)
    (hu : findById s i = some u) (hok : docTxnsOk u = true)
    (hk : ∀ c ∈ l, validTxnType (some c.kind) = true) :
    findById (runStore s i l) i = some (runTxns u l) := by
  induction l generalizing s u with
  | nil => simpa [runStore, runTxns] using hu
  | cons c r ih =>
    have hkc : validTxnType (some c.kind) = true := hk c (by simp)
    have hok2 : docTxnsOk (ledgerStep u (some c.kind) c.amount c.time) = true := by
      rw [ledgerStep_docTxnsOk, hok, hkc]; rfl
    have hid : (ledgerStep u (some c.kind) c.amount c.time).id = i := by
      rw [ledgerStep_id]; exact findById_id s i u hu
    have hstep : (applyTransaction s i (some c.kind) c.amount c.time).snd
        = saveUser s (ledgerStep u (some c.kind) c.amount c.time) := by
      simp [applyTransaction, hu, hok2]
    rw [runStore, runTxns, hstep]
    exact ih _ _ (findById_saveUser s i u _ hu hid) hok2
      (fun d hd => hk d (by simp [hd]))

/-! Concrete documents used by the closed witness theorems. -/

/-- A freshly registered user with the default ledger state. -/
def user0 : UserDoc :=
  { id := "u1", firstName := "Alice", lastName := "Smith",
    email := "alice@example.com", phone := "0800000000", dob := "1990-01-01",
    street := "", city := "", state := "", zip := "",
    password := "pw1", idFrontUrl := "", idBackUrl := "", selfieUrl := "",
    verified := false, frozen := false,
    balance := 0, totalDeposit := 0, totalWithdrawal := 0, totalInvestment := 0,
    minDeposit := 0, minWithdrawal := 0, transactions := [], createdAt := 0 }

/-- The two ledger calls of the spec's end-to-end example. -/
def callsEx : List Call :=
  [⟨"deposit", 100, 1⟩, ⟨"withdrawal", 40, 2⟩]

/-- C1: starting from the default ledger state, a sequence of admin
transaction calls with recognized kinds leaves the account with
`balance = Σ deposits − Σ withdrawals − Σ investments`, with
`balance = totalDeposit − totalWithdrawal − totalInvestment`, and with the
transaction log holding exactly the calls in call order. -/
theorem ledger_run_invariant (s : UserStore) (i : String) (u : UserDoc) (calls : List Call)
    (hu : findById s i = some u)
    (hb : u.balance = 0) (hd : u.totalDeposit = 0) (hw : u.totalWithdrawal = 0)
    (hv : u.totalInvestment = 0) (ht : u.transactions = [])
    (hk : ∀ c ∈ calls, c.kind = "deposit" ∨ c.kind = "withdrawal" ∨ c.kind = "investment") :
    ∃ uf, findById (runStore s i calls) i = some uf ∧
      uf.balance = sumKind "deposit" calls - sumKind "withdrawal" calls
        - sumKind "investment" calls ∧
      uf.balance = uf.totalDeposit - uf.totalWithdrawal - uf.totalInvestment ∧
      uf.transactions = calls.map mkTxn ∧
      uf.transactions.length = calls.length := by
  have hok : docTxnsOk u = true := by simp [docTxnsOk, ht]
  have hvk : ∀ c ∈ calls, validTxnType (some c.kind) = true := by
    intro c hc
    rcases hk c hc with h | h | h <;> simp [validTxnType, h]
  refine ⟨runTxns u calls, runStore_findById calls s i u hu hok hvk, ?_, ?_, ?_, ?_⟩
  · rw [runTxns_balance, hb]; ring
  · rw [runTxns_balance, runTxns_totalDeposit, runTxns_totalWithdrawal,
      runTxns_totalInvestment, hb, hd, hw, hv]
    ring
  · rw [runTxns_transactions, ht]; rfl
  · rw [runTxns_transactions, ht]; simp

/-- C1 witness: the spec's end-to-end example (deposit 100 then withdrawal 40
on a fresh account). -/
theorem ledger_run_invariant_witness :
    findById [user0] "u1" = some user0 ∧
    (∀ c ∈ callsEx, c.kind = "deposit" ∨ c.kind = "withdrawal" ∨ c.kind = "investment") ∧
    ∃ uf, findById (runStore [user0] "u1" callsEx) "u1" = some uf ∧
      uf.balance = sumKind "deposit" callsEx - sumKind "withdrawal" callsEx
        - sumKind "investment" callsEx ∧
      uf.balance = uf.totalDeposit - uf.totalWithdrawal - uf.totalInvestment ∧
      uf.transactions = callsEx.map mkTxn ∧
      uf.transactions.length = callsEx.length :=
  ⟨by decide, by decide,
    ledger_run_invariant [user0] "u1" user0 callsEx (by decide) (by decide) (by decide)
      (by decide) (by decide) (by decide) (by decide)⟩

/-- C2 counterexample: an unrecognized kind string does not succeed. At a
concrete input the route answers with the validation error (the handler's
500), not with an updated account snapshot, and persists nothing: the
schema enum `["deposit","investment","withdrawal"]` on `transactions.type`
makes `save()` reject the pushed record. -/
theorem unrecognized_kind_cex :
    applyTransaction [user0] "u1" (some "bonus") 5 7
      = (TxnResult.validationError, [user0]) := by
  decide

/-- C2 amended: on an existing account with a valid stored log, a kind
string outside the enum leaves balance and every total unchanged in the
mutated document and appends the record only in memory; `save()` rejects it
by the schema enum, so the route fails (500) and the store is unchanged. -/
theorem unrecognized_kind_amended (s : UserStore) (i : String) (u : UserDoc)
    (k : String) (a : Int) (n : Nat)
    (hu : findById s i = some u)
    (h1 : k ≠ "deposit") (h2 : k ≠ "investment") (h3 : k ≠ "withdrawal") :
    applyTransaction s i (some k) a n = (TxnResult.validationError, s) ∧
    (ledgerStep u (some k) a n).balance = u.balance ∧
    (ledgerStep u (some k) a n).totalDeposit = u.totalDeposit ∧
    (ledgerStep u (some k) a n).totalWithdrawal = u.totalWithdrawal ∧
    (ledgerStep u (some k) a n).totalInvestment = u.totalInvestment ∧
    (ledgerStep u (some k) a n).transactions = u.transactions ++ [⟨some k, a, n⟩] := by
  have hvt : validTxnType (some k) = false := by
    simp [validTxnType, h1, h2, h3]
  have hdoc : docTxnsOk (ledgerStep u (some k) a n) = false := by
    rw [ledgerStep_docTxnsOk, hvt]; simp
  refine ⟨?_, ?_, ?_, ?_, ?_, ledgerStep_transactions u (some k) a n⟩
  · simp [applyTransaction, hu, hdoc]
  · rw [ledgerStep_balance]; simp [h1, h2, h3]
  · rw [ledgerStep_totalDeposit]; simp [h1]
  · rw [ledgerStep_totalWithdrawal]; simp [h3]
  · rw [ledgerStep_totalInvestment]; simp [h2]

/-- C2 amended witness: the kind "bonus" with amount 5 on the fresh account. -/
theorem unrecognized_kind_amended_witness :
    findById [user0] "u1" = some user0 ∧
    ("bonus" ≠ "deposit" ∧ "bonus" ≠ "investment" ∧ "bonus" ≠ "withdrawal") ∧
    (applyTransaction [user0] "u1" (some "bonus") 5 7 = (TxnResult.validationError, [user0]) ∧
      (ledgerStep user0 (some "bonus") 5 7).balance = user0.balance ∧
      (ledgerStep user0 (some "bonus") 5 7).totalDeposit = user0.totalDeposit ∧
      (ledgerStep user0 (some "bonus") 5 7).totalWithdrawal = user0.totalWithdrawal ∧
      (ledgerStep user0 (some "bonus") 5 7).totalInvestment = user0.totalInvestment ∧
      (ledgerStep user0 (some "bonus") 5 7).transactions
        = user0.transactions ++ [⟨some "bonus", 5, 7⟩]) :=
  ⟨by decide, ⟨by decide, by decide, by decide⟩,
    unrecognized_kind_amended [user0] "u1" user0 "bonus" 5 7
      (by decide) (by decide) (by decide) (by decide)⟩

/-! Route inventory and access control. -/

/-- Middleware chain a route is registered with in `src/server.js`. -/
inductive AuthGate where
  | public
  | token
  | tokenAdmin
  deriving Repr, DecidableEq

/-- Every `app.get/post/put/patch/delete` registration of `src/server.js`,
in source order: method, path, middleware chain. -/
def routes : List (String × String × AuthGate) :=
  [("GET", "/api/health", AuthGate.public),
   ("POST", "/api/register", AuthGate.public),
   ("POST", "/api/login", AuthGate.public),
   ("GET", "/api/me", AuthGate.token),
   ("POST", "/api/admin/create", AuthGate.public),
   ("GET", "/api/admin/users", AuthGate.tokenAdmin),
   ("GET", "/api/admin/user/:id", AuthGate.tokenAdmin),
   ("PUT", "/api/admin/user/:id", AuthGate.tokenAdmin),
   ("PATCH", "/api/users/:id/verify", AuthGate.tokenAdmin),
   ("PATCH", "/api/admin/user/:id/freeze", AuthGate.tokenAdmin),
   ("POST", "/api/admin/user/:id/transactions", AuthGate.tokenAdmin),
   ("DELETE", "/api/admin/user/:id", AuthGate.tokenAdmin),
   ("PUT", "/api/update-profile", AuthGate.token)]

/-- C3 counterexample: no route of the program matches
`POST /api/admin/verify/:userId` — the unauthenticated verify variant the
claim asserts is not registered at all in `src/server.js`. -/
theorem admin_verify_route_cex :
    ¬ ∃ r ∈ routes, r.1 = "POST" ∧ r.2.1 = "/api/admin/verify/:userId" := by
  decide

/-- C3 amended: the only verify route the program exposes is the
authenticated admin route `PATCH /api/users/:id/verify`; no route with path
`/api/admin/verify/:userId` exists under any method. -/
theorem admin_verify_route_amended :
    ("PATCH", "/api/users/:id/verify", AuthGate.tokenAdmin) ∈ routes ∧
    ∀ r ∈ routes, r.2.1 ≠ "/api/admin/verify/:userId" := by
  decide

/-- The claims carried by a verified token. The `role` field is an `Option`
so that a token without a role claim is representable. -/
structure TokenClaims where
  id : String
  email : String
  role : Option String
  deriving Repr, DecidableEq

/-- Outcome of a middleware: an HTTP error with status and message, or pass
control to the next handler. -/
inductive MWResult where
  | err (status : Nat) (msg : String)
  | pass (claims : TokenClaims)
  deriving Repr, DecidableEq

/-- `adminMiddleware` of `src/server.js`: 401 when `req.user` is unset, 403
unless `req.user.role === "admin"`, otherwise `next()`. -/
def adminMiddleware (reqUser : Option TokenClaims) : MWResult :=
  match reqUser with
  | none => MWResult.err 401 "Unauthorized"
  | some c =>
    if c.role = some "admin" then MWResult.pass c
    else MWResult.err 403 "Admin access only"

/-- C4: for a request whose token verified (so `req.user` carries claims),
the admin check answers 403 Forbidden when the role claim is `user` or
absent, passes when the role claim is `admin`, and never produces an error
with a status other than 403. -/
theorem admin_check_role (c : TokenClaims) :
    ((c.role = some "user" ∨ c.role = none) →
      adminMiddleware (some c) = MWResult.err 403 "Admin access only") ∧
    (c.role = some "admin" → adminMiddleware (some c) = MWResult.pass c) ∧
    (∀ s m, adminMiddleware (some c) = MWResult.err s m → s = 403) := by
  refine ⟨?_, ?_, ?_⟩
  · rintro (h | h) <;> simp [adminMiddleware, h]
  · intro h; simp [adminMiddleware, h]
  · intro s m h
    by_cases hr : c.role = some "admin"
    · simp [adminMiddleware, hr] at h
    · simp [adminMiddleware, hr] at h
      exact h.1.symm

/-- C4 witness: a `user`-role claim is forbidden, an `admin`-role claim
passes. -/
theorem admin_check_role_witness :
    adminMiddleware (some ⟨"a1", "a@x", some "user"⟩)
      = MWResult.err 403 "Admin access only" ∧
    adminMiddleware (some ⟨"a2", "b@x", some "admin"⟩)
      = MWResult.pass ⟨"a2", "b@x", some "admin"⟩ :=
  ⟨(admin_check_role ⟨"a1", "a@x", some "user"⟩).1 (Or.inl rfl),
   (admin_check_role ⟨"a2", "b@x", some "admin"⟩).2.1 rfl⟩

/-! Token extraction: `authHeader.split(' ')[1]` in `src/server.js`. -/

/-- JS `String.prototype.split` with a single-character separator, on the
character list: split at every occurrence, keeping empty pieces. -/
def splitChars (sep : Char) : List Char → List Char → List (List Char)
  | [], acc => [acc.reverse]
  | c :: rest, acc =>
    if c = sep then acc.reverse :: splitChars sep rest []
    else splitChars sep rest (c :: acc)

/-- JS `header.split(' ')`. -/
def jsSplit (s : String) : List String :=
  (splitChars ' ' s.data []).map (fun l => String.mk l)

/-- Result of the token middleware: a 401 error with the handler's message,
or pass with the decoded claims attached to the request. -/
inductive AuthResult where
  | err (msg : String)
  | ok (claims : TokenClaims)
  deriving Repr, DecidableEq

/-- `authMiddleware` of `src/server.js`, parameterized by `jwt.verify`:
reject a missing (or JS-falsy empty) header, take `split(' ')[1]` as the
token, reject a missing or empty token, then verify; all rejections are
401. -/
def authMiddleware (verify : String → Option TokenClaims)
    (authHeader : Option String) : AuthResult :=
  match authHeader with
  | none => AuthResult.err "Missing authorization header"
  | some hdr =>
    if hdr = "" then AuthResult.err "Missing authorization header"
    else match (jsSplit hdr)[1]? with
      | none => AuthResult.err "Invalid token format"
      | some tok =>
        if tok = "" then AuthResult.err "Invalid token format"
        else match verify tok with
          | none => AuthResult.err "Invalid/expired token"
          | some c => AuthResult.ok c

/-- Modelled from the spec wording of claim C5: the header is exactly of
the form `Bearer <token>` — two space-separated words, the first being
`Bearer`, the second nonempty. Used only to compare the spec with the
code. -/
def isBearerFormat (hdr : String) : Bool :=
  match jsSplit hdr with
  | [scheme, tok] => scheme = "Bearer" && tok ≠ ""
  | _ => false

/-- A sample verified claims record. -/
def claims0 : TokenClaims :=
  ⟨"u1", "alice@example.com", some "user"⟩

/-- A sample verifier accepting exactly the token string `tok123`. -/
def verify0 : String → Option TokenClaims :=
  fun t => if t = "tok123" then some claims0 else none

/-- C5 counterexample: the header `Basic tok123` is not of the form
`Bearer <token>`, yet the middleware accepts it and attaches the claims —
the handler never inspects the scheme word, it only takes `split(' ')[1]`.
The claim's "malformed header implies 401" is false. -/
theorem auth_scheme_cex :
    isBearerFormat "Basic tok123" = false ∧
    authMiddleware verify0 (some "Basic tok123") = AuthResult.ok claims0 := by
  constructor
  · rfl
  · rfl


/-- C5 amended: the middleware attaches claims and proceeds exactly when
the header is present and nonempty, `split(' ')[1]` yields a nonempty
token string, and that string verifies — the scheme word is never checked;
a missing or JS-empty header answers 401 with the missing-header message,
and every failure of the middleware is one of the three 401 errors. -/
theorem auth_middleware_amended (verify : String → Option TokenClaims)
    (h : Option String) :
    (∀ c, authMiddleware verify h = AuthResult.ok c ↔
      (∃ hdr tok, h = some hdr ∧ hdr ≠ "" ∧ (jsSplit hdr)[1]? = some tok ∧
        tok ≠ "" ∧ verify tok = some c)) ∧
    (h = none ∨ h = some "" →
      authMiddleware verify h = AuthResult.err "Missing authorization header") ∧
    (∀ msg, authMiddleware verify h = AuthResult.err msg →
      msg = "Missing authorization header" ∨ msg = "Invalid token format" ∨
      msg = "Invalid/expired token") := by
  refine ⟨?_, ?_, ?_⟩
  · intro c
    constructor
    · intro hok
      match h with
      | none => simp [authMiddleware] at hok
      | some hdr =>
        by_cases he : hdr = ""
        · simp [authMiddleware, he] at hok
        · rcases htk : (jsSplit hdr)[1]? with _ | tok
          · simp [authMiddleware, he, htk] at hok
          · by_cases hte : tok = ""
            · simp [authMiddleware, he, htk, hte] at hok
            · rcases hv : verify tok with _ | c2
              · simp [authMiddleware, he, htk, hte, hv] at hok
              · simp [authMiddleware, he, htk, hte, hv] at hok
                exact ⟨hdr, tok, rfl, he, htk, hte, hok ▸ hv⟩
    · rintro ⟨hdr, tok, rfl, he, htk, hte, hv⟩
      simp [authMiddleware, he, htk, hte, hv]
  · rintro (rfl | rfl) <;> simp [authMiddleware]
  · intro msg hmsg
    match h with
    | none =>
      simp [authMiddleware] at hmsg
      exact Or.inl hmsg.symm
    | some hdr =>
      by_cases he : hdr = ""
      · simp [authMiddleware, he] at hmsg
        exact Or.inl hmsg.symm
      · rcases htk : (jsSplit hdr)[1]? with _ | tok
        · simp [authMiddleware, he, htk] at hmsg
          exact Or.inr (Or.inl hmsg.symm)
        · by_cases hte : tok = ""
          · simp [authMiddleware, he, htk, hte] at hmsg
            exact Or.inr (Or.inl hmsg.symm)
          · rcases hv : verify tok with _ | c2
            · simp [authMiddleware, he, htk, hte, hv] at hmsg
              exact Or.inr (Or.inr hmsg.symm)
            · simp [authMiddleware, he, htk, hte, hv] at hmsg

/-- C5 amended witness: a well-formed bearer header with a verifying token
passes, and an absent header answers the missing-header 401. -/
theorem auth_middleware_amended_witness :
    authMiddleware verify0 (some "Bearer tok123") = AuthResult.ok claims0 ∧
    authMiddleware verify0 none = AuthResult.err "Missing authorization header" :=
  ⟨((auth_middleware_amended verify0 (some "Bearer tok123")).1 claims0).2
      ⟨"Bearer tok123", "tok123", rfl, by decide, by decide, by decide, by decide⟩,
   (auth_middleware_amended verify0 none).2.1 (Or.inl rfl)⟩

/-! Freeze toggle. -/

/-- The mutation of `PATCH /api/admin/user/:id/freeze`:
`user.frozen = !user.frozen`. -/
def toggleFreeze (u : UserDoc) : UserDoc :=
  { u with frozen := !u.frozen }

/-- The freeze route: look up (404 when absent), flip, `save()`. The first
component is the responded user, the second the resulting store. -/
def patchFreeze (s : UserStore) (i : String) : Option UserDoc × UserStore :=
  match findById s i with
  | none => (none, s)
  | some u => (some (toggleFreeze u), saveUser s (toggleFreeze u))

/-- C7: on an existing account one freeze call flips exactly the `frozen`
flag (every other field is unchanged), and a second call on the resulting
store responds with the original account and stores it back unchanged. -/
theorem freeze_toggle (s : UserStore) (i : String) (u : UserDoc)
    (hu : findById s i = some u) :
    (patchFreeze s i).fst = some (toggleFreeze u) ∧
    (toggleFreeze u).frozen = !u.frozen ∧
    ((toggleFreeze u).id = u.id ∧ (toggleFreeze u).firstName = u.firstName ∧
      (toggleFreeze u).lastName = u.lastName ∧ (toggleFreeze u).email = u.email ∧
      (toggleFreeze u).phone = u.phone ∧ (toggleFreeze u).dob = u.dob ∧
      (toggleFreeze u).street = u.street ∧ (toggleFreeze u).city = u.city ∧
      (toggleFreeze u).state = u.state ∧ (toggleFreeze u).zip = u.zip ∧
      (toggleFreeze u).password = u.password ∧
      (toggleFreeze u).idFrontUrl = u.idFrontUrl ∧
      (toggleFreeze u).idBackUrl = u.idBackUrl ∧
      (toggleFreeze u).selfieUrl = u.selfieUrl ∧
      (toggleFreeze u).verified = u.verified ∧
      (toggleFreeze u).balance = u.balance ∧
      (toggleFreeze u).totalDeposit = u.totalDeposit ∧
      (toggleFreeze u).totalWithdrawal = u.totalWithdrawal ∧
      (toggleFreeze u).totalInvestment = u.totalInvestment ∧
      (toggleFreeze u).minDeposit = u.minDeposit ∧
      (toggleFreeze u).minWithdrawal = u.minWithdrawal ∧
      (toggleFreeze u).transactions = u.transactions ∧
      (toggleFreeze u).createdAt = u.createdAt) ∧
    toggleFreeze (toggleFreeze u) = u ∧
    (patchFreeze (patchFreeze s i).snd i).fst = some u ∧
    findById (patchFreeze (patchFreeze s i).snd i).snd i = some u := by
  have hid : (toggleFreeze u).id = i := by
    have := findById_id s i u hu
    simpa [toggleFreeze] using this
  have h1 : patchFreeze s i = (some (toggleFreeze u), saveUser s (toggleFreeze u)) := by
    simp [patchFreeze, hu]
  have h2 : findById (saveUser s (toggleFreeze u)) i = some (toggleFreeze u) :=
    findById_saveUser s i u (toggleFreeze u) hu hid
  have h3 : toggleFreeze (toggleFreeze u) = u := by
    cases u; simp [toggleFreeze]
  have huid : u.id = i := findById_id s i u hu
  have h4 : patchFreeze (saveUser s (toggleFreeze u)) i
      = (some u, saveUser (saveUser s (toggleFreeze u)) u) := by
    simp [patchFreeze, h2, h3]
  refine ⟨by rw [h1], rfl, ?_, h3, ?_, ?_⟩
  · cases u; simp [toggleFreeze]
  · rw [h1, h4]
  · rw [h1]
    simp only [h4]
    exact findById_saveUser _ i (toggleFreeze u) u h2 huid

/-- C7 witness: the fresh (unfrozen) account in a one-user store. -/
theorem freeze_toggle_witness :
    findById [user0] "u1" = some user0 ∧
    (patchFreeze [user0] "u1").fst = some (toggleFreeze user0) ∧
    (toggleFreeze user0).frozen = !user0.frozen ∧
    toggleFreeze (toggleFreeze user0) = user0 ∧
    (patchFreeze (patchFreeze [user0] "u1").snd "u1").fst = some user0 ∧
    findById (patchFreeze (patchFreeze [user0] "u1").snd "u1").snd "u1" = some user0 :=
  have h := freeze_toggle [user0] "u1" user0 (by decide)
  ⟨by decide, h.1, h.2.1, h.2.2.2.1, h.2.2.2.2.1, h.2.2.2.2.2⟩

/-! Registration. -/

/-- The form fields of `POST /api/register`; `street/city/state/zip`
default to the empty string in the handler's destructuring, and an absent
required field is JS-falsy, which the embedding writes as `""`. -/
structure RegisterBody where
  firstName : String
  lastName : String
  email : String
  phone : String
  dob : String
  password : String
  street : String
  city : String
  state : String
  zip : String
  deriving Repr, DecidableEq

/-- Result of the registration route. -/
inductive RegisterResult where
  | badRequest (msg : String)
  | created (userId : String)
  deriving Repr, DecidableEq

/-- `POST /api/register`: require the six mandatory fields, reject an
already registered email (`User.findOne({email})` pre-check), otherwise
create the user with the upload URLs and the schema defaults. `urls` is the
triple of Cloudinary results (empty string when no file was sent), `newId`
the id Mongo assigns, `now` the creation time. -/
def register (s : UserStore) (b : RegisterBody) (urls : String × String × String)
    (newId : String) (now : Nat) : RegisterResult × UserStore :=
  if b.firstName = "" ∨ b.lastName = "" ∨ b.email = "" ∨ b.phone = ""
      ∨ b.dob = "" ∨ b.password = "" then
    (RegisterResult.badRequest "Missing required fields", s)
  else match s.find? (fun u => u.email = b.email) with
    | some _ => (RegisterResult.badRequest "Email already registered", s)
    | none =>
      let u : UserDoc :=
        { id := newId, firstName := b.firstName, lastName := b.lastName,
          email := b.email, phone := b.phone, dob := b.dob,
          street := b.street, city := b.city, state := b.state, zip := b.zip,
          password := b.password,
          idFrontUrl := urls.1, idBackUrl := urls.2.1, selfieUrl := urls.2.2,
          verified := false, frozen := false,
          balance := 0, totalDeposit := 0, totalWithdrawal := 0,
          totalInvestment := 0, minDeposit := 0, minWithdrawal := 0,
          transactions := [], createdAt := now }
      (RegisterResult.created newId, s ++ [u])

/-- C6: a registration whose email is already stored answers 400 with
"Email already registered" and leaves the store — in particular the first
account's record — untouched. -/
theorem duplicate_email_rejected (s : UserStore) (b : RegisterBody)
    (urls : String × String × String) (newId : String) (now : Nat) (w : UserDoc)
    (hreq : b.firstName ≠ "" ∧ b.lastName ≠ "" ∧ b.email ≠ "" ∧ b.phone ≠ ""
      ∧ b.dob ≠ "" ∧ b.password ≠ "")
    (hw : w ∈ s) (hwe : w.email = b.email) :
    register s b urls newId now
      = (RegisterResult.badRequest "Email already registered", s) := by
  have hne : ¬(b.firstName = "" ∨ b.lastName = "" ∨ b.email = "" ∨ b.phone = ""
      ∨ b.dob = "" ∨ b.password = "") := by
    simp [hreq.1, hreq.2.1, hreq.2.2.1, hreq.2.2.2.1, hreq.2.2.2.2.1, hreq.2.2.2.2.2]
  have hs : (s.find? (fun u => u.email = b.email)).isSome := by
    rw [List.find?_isSome]
    exact ⟨w, hw, by simp [hwe]⟩
  rcases hfind : s.find? (fun u => u.email = b.email) with _ | v
  · rw [hfind] at hs; simp at hs
  · simp [register, hne, hfind]

/-- C6 witness: a second registration reusing the stored account's email. -/
theorem duplicate_email_rejected_witness :
    (let b : RegisterBody :=
      ⟨"Bob", "Jones", "alice@example.com", "0801", "1991-02-02", "pw2", "", "", "", ""⟩
    (b.firstName ≠ "" ∧ b.lastName ≠ "" ∧ b.email ≠ "" ∧ b.phone ≠ ""
        ∧ b.dob ≠ "" ∧ b.password ≠ "") ∧
      user0 ∈ [user0] ∧ user0.email = b.email ∧
      register [user0] b ("", "", "") "u2" 5
        = (RegisterResult.badRequest "Email already registered", [user0])) :=
  ⟨by decide, by decide, by decide,
    duplicate_email_rejected [user0]
      ⟨"Bob", "Jones", "alice@example.com", "0801", "1991-02-02", "pw2", "", "", "", ""⟩
      ("", "", "") "u2" 5 user0 (by decide) (by decide) (by decide)⟩

/-! Admin user list with `select('-password')`. -/

/-- What `GET /api/admin/users` returns per user: every schema path except
`password`. -/
structure UserView where
  id : String
  firstName : String
  lastName : String
  email : String
  phone : String
  dob : String
  street : String
  city : String
  state : String
  zip : String
  idFrontUrl : String
  idBackUrl : String
  selfieUrl : String
  verified : Bool
  frozen : Bool
  balance : Int
  totalDeposit : Int
  totalWithdrawal : Int
  totalInvestment : Int
  minDeposit : Int
  minWithdrawal : Int
  transactions : List Txn
  createdAt : Nat
  deriving Repr, DecidableEq

/-- `select('-password')` on one document. -/
def toView (u : UserDoc) : UserView :=
  ⟨u.id, u.firstName, u.lastName, u.email, u.phone, u.dob, u.street, u.city,
   u.state, u.zip, u.idFrontUrl, u.idBackUrl, u.selfieUrl, u.verified,
   u.frozen, u.balance, u.totalDeposit, u.totalWithdrawal, u.totalInvestment,
   u.minDeposit, u.minWithdrawal, u.transactions, u.createdAt⟩

/-- The handler body of `GET /api/admin/users`:
`User.find().select('-password')`. -/
def adminListUsers (s : UserStore) : List UserView :=
  s.map toView

/-- Two stored documents that agree on everything except possibly the
stored password value. -/
def eqExceptPassword (u v : UserDoc) : Prop :=
  v = { u with password := v.password }

/-- C8: the admin user list never depends on stored passwords — two stores
that differ only in password values produce the identical response, so no
password field (or password-derived data) occurs in it. -/
theorem admin_users_no_password (s1 s2 : UserStore)
    (h : List.Forall₂ eqExceptPassword s1 s2) :
    adminListUsers s1 = adminListUsers s2 := by
  induction h with
  | nil => rfl
  | @cons a b l1 l2 hab hrest ih =>
    have ht : toView b = toView a := by
      rw [hab]; cases a; rfl
    simp only [adminListUsers, List.map_cons] at ih ⊢
    rw [ht, ih]

/-- The stored account with a different password. -/
def user0pw : UserDoc :=
  { user0 with password := "hunter2" }

/-- C8 witness: two one-user stores differing only in the password. -/
theorem admin_users_no_password_witness :
    List.Forall₂ eqExceptPassword [user0] [user0pw] ∧
    adminListUsers [user0] = adminListUsers [user0pw] :=
  have hf : List.Forall₂ eqExceptPassword [user0] [user0pw] :=
    List.Forall₂.cons rfl List.Forall₂.nil
  ⟨hf, admin_users_no_password [user0] [user0pw] hf⟩

/-! Profile update. -/

/-- The body of `PUT /api/update-profile`, restricted to the handler's
`allowedFields` list; any other body key is never read. The last allowed
name is `selfie`, which is not a schema path (the schema stores
`selfieUrl`), so under mongoose strict mode its `$set` is silently dropped
and no stored field is affected by it. -/
structure ProfileBody where
  firstName : Option String
  lastName : Option String
  dob : Option String
  phone : Option String
  email : Option String
  street : Option String
  city : Option String
  state : Option String
  zip : Option String
  selfie : Option String
  deriving Repr, DecidableEq

/-- The handler's filter: a body value enters `updates` only when it is
defined and not the empty string. -/
def setIfPresent (cur : String) (v : Option String) : String :=
  match v with
  | none => cur
  | some s => if s = "" then cur else s

/-- A body value the handler ignores: absent or the empty string. -/
def blankField (v : Option String) : Prop :=
  v = none ∨ v = some ""

theorem setIfPresent_blank (cur : String) (v : Option String)
    (h : blankField v) : setIfPresent cur v = cur := by
  rcases h with rfl | rfl <;> rfl

/-- The effect of `PUT /api/update-profile` on the caller's document:
`$set` of the filtered allowed fields (the non-schema `selfie` key being
dropped by strict mode). -/
def updateProfile (u : UserDoc) (b : ProfileBody) : UserDoc :=
  { u with
    firstName := setIfPresent u.firstName b.firstName,
    lastName := setIfPresent u.lastName b.lastName,
    dob := setIfPresent u.dob b.dob,
    phone := setIfPresent u.phone b.phone,
    email := setIfPresent u.email b.email,
    street := setIfPresent u.street b.street,
    city := setIfPresent u.city b.city,
    state := setIfPresent u.state b.state,
    zip := setIfPresent u.zip b.zip }

/-- C9: a profile update can change only the nine allowed schema fields —
password, ledger fields, flags, thresholds, the three artifact URLs,
the transaction log, id and creation time are untouched — and in any body,
each allowed field whose value is absent or the empty string is ignored
individually (so no listed field can be cleared to empty); a body all of
whose values are absent or empty changes nothing at all. -/
theorem update_profile_frame (u : UserDoc) (b : ProfileBody) :
    ((updateProfile u b).id = u.id ∧
     (updateProfile u b).password = u.password ∧
     (updateProfile u b).balance = u.balance ∧
     (updateProfile u b).totalDeposit = u.totalDeposit ∧
     (updateProfile u b).totalWithdrawal = u.totalWithdrawal ∧
     (updateProfile u b).totalInvestment = u.totalInvestment ∧
     (updateProfile u b).transactions = u.transactions ∧
     (updateProfile u b).verified = u.verified ∧
     (updateProfile u b).frozen = u.frozen ∧
     (updateProfile u b).minDeposit = u.minDeposit ∧
     (updateProfile u b).minWithdrawal = u.minWithdrawal ∧
     (updateProfile u b).idFrontUrl = u.idFrontUrl ∧
     (updateProfile u b).idBackUrl = u.idBackUrl ∧
     (updateProfile u b).selfieUrl = u.selfieUrl ∧
     (updateProfile u b).createdAt = u.createdAt) ∧
    ((blankField b.firstName → (updateProfile u b).firstName = u.firstName) ∧
     (blankField b.lastName → (updateProfile u b).lastName = u.lastName) ∧
     (blankField b.dob → (updateProfile u b).dob = u.dob) ∧
     (blankField b.phone → (updateProfile u b).phone = u.phone) ∧
     (blankField b.email → (updateProfile u b).email = u.email) ∧
     (blankField b.street → (updateProfile u b).street = u.street) ∧
     (blankField b.city → (updateProfile u b).city = u.city) ∧
     (blankField b.state → (updateProfile u b).state = u.state) ∧
     (blankField b.zip → (updateProfile u b).zip = u.zip)) ∧
    ((blankField b.firstName ∧ blankField b.lastName ∧ blankField b.dob ∧
      blankField b.phone ∧ blankField b.email ∧ blankField b.street ∧
      blankField b.city ∧ blankField b.state ∧ blankField b.zip ∧
      blankField b.selfie) → updateProfile u b = u) := by
  refine ⟨⟨rfl, rfl, rfl, rfl, rfl, rfl, rfl, rfl, rfl, rfl, rfl, rfl, rfl, rfl, rfl⟩,
    ⟨fun h => setIfPresent_blank u.firstName b.firstName h,
     fun h => setIfPresent_blank u.lastName b.lastName h,
     fun h => setIfPresent_blank u.dob b.dob h,
     fun h => setIfPresent_blank u.phone b.phone h,
     fun h => setIfPresent_blank u.email b.email h,
     fun h => setIfPresent_blank u.street b.street h,
     fun h => setIfPresent_blank u.city b.city h,
     fun h => setIfPresent_blank u.state b.state h,
     fun h => setIfPresent_blank u.zip b.zip h⟩, ?_⟩
  rintro ⟨h1, h2, h3, h4, h5, h6, h7, h8, h9, -⟩
  simp only [updateProfile,
    setIfPresent_blank u.firstName b.firstName h1,
    setIfPresent_blank u.lastName b.lastName h2,
    setIfPresent_blank u.dob b.dob h3,
    setIfPresent_blank u.phone b.phone h4,
    setIfPresent_blank u.email b.email h5,
    setIfPresent_blank u.street b.street h6,
    setIfPresent_blank u.city b.city h7,
    setIfPresent_blank u.state b.state h8,
    setIfPresent_blank u.zip b.zip h9]

/-- A body carrying only empty strings and absent values. -/
def pb0 : ProfileBody :=
  ⟨some "", none, some "", none, none, some "", none, none, some "", none⟩

/-- A mixed body: some fields applied (`firstName`, `street`), others
absent or empty. -/
def pbMix : ProfileBody :=
  ⟨some "Bob", some "", none, some "", none, some "Lane", none, some "", none, some ""⟩

/-- C9 witness: in the mixed body the blank `lastName` and absent `email`
are ignored and `password` is untouched even though other fields are being
applied; the all-blank body leaves the account exactly as it was. -/
theorem update_profile_frame_witness :
    (updateProfile user0 pbMix).lastName = user0.lastName ∧
    (updateProfile user0 pbMix).email = user0.email ∧
    (updateProfile user0 pbMix).password = user0.password ∧
    updateProfile user0 pb0 = user0 := by
  obtain ⟨hframe, hfields, -⟩ := update_profile_frame user0 pbMix
  obtain ⟨-, hb2, -, -, hb5, -, -, -, -⟩ := hfields
  refine ⟨hb2 (Or.inr rfl), hb5 (Or.inl rfl), hframe.2.1, ?_⟩
  exact (update_profile_frame user0 pb0).2.2
    ⟨Or.inr rfl, Or.inl rfl, Or.inr rfl, Or.inl rfl, Or.inl rfl,
     Or.inr rfl, Or.inl rfl, Or.inl rfl, Or.inr rfl, Or.inl rfl⟩

/-! Login. -/

/-- Result of `POST /api/login`; a success carries the claims signed into
the issued token. -/
inductive LoginResult where
  | badRequest (msg : String)
  | success (claims : TokenClaims)
  deriving Repr, DecidableEq

/-- The fall-through of the login handler: `Admin.findOne({email})`, then
the password comparison, issuing `{ id, email, role: "admin" }`. -/
def loginAdmin (ads : List AdminDoc) (email pw : String) : LoginResult :=
  match ads.find? (fun a => a.email = email) with
  | some a =>
    if a.password = pw then LoginResult.success ⟨a.id, a.email, some "admin"⟩
    else LoginResult.badRequest "Invalid email or password"
  | none => LoginResult.badRequest "Invalid email or password"

/-- `POST /api/login`: require both fields, try `User.findOne({email})`
first and issue `{ id, email, role: "user" }` on a password match; in every
other case fall through to the admin lookup. -/
def login (us : UserStore) (ads : List AdminDoc) (email pw : String) : LoginResult :=
  if email = "" ∨ pw = "" then LoginResult.badRequest "Missing email or password"
  else
    match us.find? (fun u => u.email = email) with
    | some u =>
      if u.password = pw then LoginResult.success ⟨u.id, u.email, some "user"⟩
      else loginAdmin ads email pw
    | none => loginAdmin ads email pw

theorem loginAdmin_success (ads : List AdminDoc) (email pw : String) (c : TokenClaims)
    (h : loginAdmin ads email pw = LoginResult.success c) :
    c.role = some "admin" ∧
    ∃ a, ads.find? (fun x => x.email = email) = some a ∧ a.password = pw := by
  rcases hfa : ads.find? (fun x => x.email = email) with _ | a
  · simp [loginAdmin, hfa] at h
  · by_cases hpa : a.password = pw
    · simp only [loginAdmin, hfa, if_pos hpa, LoginResult.success.injEq] at h
      rw [← h]
      exact ⟨rfl, a, hfa, hpa⟩
    · simp [loginAdmin, hfa, hpa] at h

/-- C10: every token the login route issues carries an explicit role claim,
`user` exactly when the first user record with that email matched the
password, and `admin` only when no such user match existed and the first
admin record with that email matched the password. -/
theorem login_role_claims (us : UserStore) (ads : List AdminDoc)
    (email pw : String) (c : TokenClaims)
    (h : login us ads email pw = LoginResult.success c) :
    (c.role = some "user" ∨ c.role = some "admin") ∧
    (c.role = some "user" ↔
      ∃ u, us.find? (fun x => x.email = email) = some u ∧ u.password = pw) ∧
    (c.role = some "admin" →
      (∃ a, ads.find? (fun x => x.email = email) = some a ∧ a.password = pw) ∧
      ¬ ∃ u, us.find? (fun x => x.email = email) = some u ∧ u.password = pw) := by
  by_cases hm : email = "" ∨ pw = ""
  · simp [login, hm] at h
  · rcases hf : us.find? (fun x => x.email = email) with _ | u
    · have h' : loginAdmin ads email pw = LoginResult.success c := by
        simpa [login, hm, hf] using h
      obtain ⟨hrole, ha⟩ := loginAdmin_success ads email pw c h'
      refine ⟨Or.inr hrole, ?_, fun _ => ⟨ha, ?_⟩⟩
      · constructor
        · intro hu
          rw [hrole] at hu
          simp at hu
        · rintro ⟨u, hu, -⟩
          rw [hf] at hu
          simp at hu
      · rintro ⟨u, hu, -⟩
        rw [hf] at hu
        simp at hu
    · by_cases hp : u.password = pw
      · have h' : LoginResult.success ⟨u.id, u.email, some "user"⟩ = LoginResult.success c := by
          simpa [login, hm, hf, hp] using h
        have hc : c = ⟨u.id, u.email, some "user"⟩ := by
          rw [LoginResult.success.injEq] at h'
          exact h'.symm
        subst hc
        refine ⟨Or.inl rfl, ⟨fun _ => ⟨u, hf, hp⟩, fun _ => rfl⟩, ?_⟩
        intro hbad
        simp at hbad
      · have h' : loginAdmin ads email pw = LoginResult.success c := by
          simpa [login, hm, hf, hp] using h
        obtain ⟨hrole, ha⟩ := loginAdmin_success ads email pw c h'
        refine ⟨Or.inr hrole, ?_, fun _ => ⟨ha, ?_⟩⟩
        · constructor
          · intro hu
            rw [hrole] at hu
            simp at hu
          · rintro ⟨u2, hu2, hp2⟩
            rw [hf, Option.some.injEq] at hu2
            exact absurd (by rw [hu2]; exact hp2) hp
        · rintro ⟨u2, hu2, hp2⟩
          rw [hf, Option.some.injEq] at hu2
          exact absurd (by rw [hu2]; exact hp2) hp

/-- C10 witness: logging in with the stored user credentials issues a
token whose role claim is present and equal to `user`. -/
theorem login_role_claims_witness :
    login [user0] [] "alice@example.com" "pw1"
      = LoginResult.success ⟨"u1", "alice@example.com", some "user"⟩ ∧
    ((⟨"u1", "alice@example.com", some "user"⟩ : TokenClaims).role = some "user" ∨
     (⟨"u1", "alice@example.com", some "user"⟩ : TokenClaims).role = some "admin") :=
  have h : login [user0] [] "alice@example.com" "pw1"
      = LoginResult.success ⟨"u1", "alice@example.com", some "user"⟩ := by decide
  ⟨h, (login_role_claims [user0] [] "alice@example.com" "pw1" _ h).1⟩
